import Mathlib

/-!
# Verification of the demand-forecasting / inventory-optimization core

Shallow embedding of `analytics/services.py` of the medicine ordering system
(classes `ARIMAForecastingService` and `SupplyChainOptimizer`), over exact
rationals.  Conventions used throughout:

* Python / numpy floating point values are modelled as `Option ℚ`:
  `some q` is a finite value, `none` stands for a non-finite value
  (`nan`, `inf` and `-inf` are conflated; every operation of the embedded
  code maps non-finite operands to non-finite results, which is faithful
  on all code paths the theorems traverse — the code never divides a
  finite value by a non-finite one).
* Calendar days are integers; day `0` is a Monday, so a day `d` is a
  Monday iff `d % 7 = 0` and a Sunday iff `d % 7 = 6`.
* External numerical library routines (`scipy.stats.norm.ppf`,
  `np.sqrt`, `pmdarima.auto_arima`, the statsmodels ARIMA fit) are
  parameters of the embedded functions; theorems constrain them only
  through explicit hypotheses that the real routines satisfy.
-/

namespace MedOrd

/-- Python's `int()` applied to a float: truncation toward zero — the
floor for non-negative values, the ceiling for negative ones. -/
def pyInt (q : ℚ) : ℤ := if 0 ≤ q then ⌊q⌋ else ⌈q⌉

theorem pyInt_eq_floor (q : ℚ) (h : 0 ≤ q) : pyInt q = ⌊q⌋ := if_pos h

theorem pyInt_nonneg (q : ℚ) (h : 0 ≤ q) : 0 ≤ pyInt q := by
  rw [pyInt_eq_floor q h]
  exact Int.floor_nonneg.mpr h

theorem pyInt_mono_of_nonneg (a b : ℚ) (ha : 0 ≤ a) (hab : a ≤ b) : pyInt a ≤ pyInt b := by
  rw [pyInt_eq_floor a ha, pyInt_eq_floor b (ha.trans hab)]
  exact Int.floor_le_floor hab

/-- Embedding of `np.mean` over a list of (finite) floats: `nan` (= `none`) on the
empty list, otherwise the arithmetic mean. -/
def npMean (xs : List ℚ) : Option ℚ :=
  if xs.length = 0 then none else some (xs.sum / xs.length)

/-- The square of `np.std` (population standard deviation, `ddof=0`):
mean of the squared deviations from the mean; `nan` on the empty list. -/
def npVarianceP (xs : List ℚ) : Option ℚ :=
  (npMean xs).bind fun m => npMean (xs.map fun x => (x - m) ^ 2)

/-- Float addition (finite + finite is finite, anything else non-finite). -/
def fAdd : Option ℚ → Option ℚ → Option ℚ
  | some a, some b => some (a + b)
  | _, _ => none

/-- Float multiplication; `0 * inf = nan` and kin are all `none`. -/
def fMul : Option ℚ → Option ℚ → Option ℚ
  | some a, some b => some (a * b)
  | _, _ => none

/-- Float division.  A finite value divided by `0.0` is `inf`/`nan`,
hence `none`.  (IEEE maps finite/±inf to `±0.0`, a finite value; this
model maps it to `none`, but no operation in the embedded code divides
by a non-finite value.) -/
def fDiv : Option ℚ → Option ℚ → Option ℚ
  | some a, some b => if b = 0 then none else some (a / b)
  | _, _ => none

/-- Lift an external square-root routine (`np.sqrt`) to floats:
non-finite inputs stay non-finite. -/
def fSqrt (sqrtf : ℚ → Option ℚ) : Option ℚ → Option ℚ
  | some a => sqrtf a
  | none => none

/-- Lift an external normal-quantile routine (`scipy.stats.norm.ppf`)
to floats: non-finite inputs stay non-finite. -/
def fPpf (ppf : ℚ → Option ℚ) : Option ℚ → Option ℚ
  | some a => ppf a
  | none => none

@[simp] theorem fAdd_none_left (b : Option ℚ) : fAdd none b = none := by
  cases b <;> rfl

@[simp] theorem fAdd_none_right (a : Option ℚ) : fAdd a none = none := by
  cases a <;> rfl

@[simp] theorem fMul_none_left (b : Option ℚ) : fMul none b = none := by
  cases b <;> rfl

@[simp] theorem fMul_none_right (a : Option ℚ) : fMul a none = none := by
  cases a <;> rfl

@[simp] theorem fAdd_some_some (a b : ℚ) : fAdd (some a) (some b) = some (a + b) := rfl

@[simp] theorem fMul_some_some (a b : ℚ) : fMul (some a) (some b) = some (a * b) := rfl

@[simp] theorem fSqrt_some (sqrtf : ℚ → Option ℚ) (a : ℚ) :
    fSqrt sqrtf (some a) = sqrtf a := rfl

@[simp] theorem fSqrt_none (sqrtf : ℚ → Option ℚ) : fSqrt sqrtf none = none := rfl

@[simp] theorem fPpf_some (ppf : ℚ → Option ℚ) (a : ℚ) : fPpf ppf (some a) = ppf a := rfl

@[simp] theorem fPpf_none (ppf : ℚ → Option ℚ) : fPpf ppf none = none := rfl

/-!
## Fit-quality metrics (`ARIMAForecastingService.calculate_model_metrics`)

The MAPE component of the returned metrics dictionary:

    mape = np.mean(np.abs((actual - predicted) / np.where(actual != 0, actual, 1))) * 100

Over exact rationals every value is finite, so the `np.isfinite` mask at
the top of the method keeps every element; the `float('inf')` returned
when the masked arrays are empty is modelled as `none`.  Arrays of equal
length combine elementwise, which `List.zip` mirrors.
-/

/-- MAPE as computed by `calculate_model_metrics` (the `'mape'` entry of
the returned dictionary). -/
def calculate_model_metrics_mape (actual predicted : List ℚ) : Option ℚ :=
  let pairs := actual.zip predicted
  if pairs.length = 0 then none
  else
    some (((pairs.map fun ap => |(ap.1 - ap.2) / (if ap.1 ≠ 0 then ap.1 else 1)|).sum
      / pairs.length) * 100)

/-- The per-term value named by the claim: `|actual − predicted| / denom × 100`
with `denom = actual` when non-zero and `1` otherwise. -/
def mapeClaimTerm (ap : ℚ × ℚ) : ℚ :=
  |ap.1 - ap.2| / (if ap.1 = 0 then 1 else ap.1) * 100

/-- C1: for aligned nonempty actual/predicted sequences with non-negative
actual values (actuals are sales quantities in this program), the computed
MAPE equals the mean over all terms of `|actual − predicted| / denom × 100`,
where `denom` is the actual value when non-zero and `1` when it is `0`;
the result is finite (a `some`) and non-negative. -/
theorem C1_mape_zero_denominator_guard (actual predicted : List ℚ)
    (hlen : actual.length = predicted.length) (hne : actual ≠ [])
    (hnn : ∀ a ∈ actual, 0 ≤ a) :
    calculate_model_metrics_mape actual predicted =
      some (((actual.zip predicted).map mapeClaimTerm).sum / (actual.zip predicted).length) ∧
    ∀ m, calculate_model_metrics_mape actual predicted = some m → 0 ≤ m := by
  have hlz : (actual.zip predicted).length = actual.length := by
    simp [List.length_zip, hlen]
  have hpos : 0 < (actual.zip predicted).length := by
    rw [hlz]
    exact List.length_pos.mpr hne
  have hterm : ∀ ap ∈ actual.zip predicted,
      |(ap.1 - ap.2) / (if ap.1 ≠ 0 then ap.1 else 1)| = mapeClaimTerm ap / 100 := by
    intro ap hap
    have ha : 0 ≤ ap.1 := hnn _ (List.of_mem_zip hap).1
    by_cases h : ap.1 = 0
    · simp [mapeClaimTerm, h, abs_div]
    · have hpos' : 0 < ap.1 := lt_of_le_of_ne ha (Ne.symm h)
      unfold mapeClaimTerm
      rw [if_pos h, if_neg h, abs_div, abs_of_pos hpos', mul_div_assoc]
      norm_num
  constructor
  · unfold calculate_model_metrics_mape
    rw [if_neg (Nat.pos_iff_ne_zero.mp hpos)]
    congr 1
    rw [List.map_congr_left hterm]
    have : ((actual.zip predicted).map fun ap => mapeClaimTerm ap / 100).sum
        = ((actual.zip predicted).map mapeClaimTerm).sum / 100 := by
      induction actual.zip predicted with
      | nil => simp
      | cons hd tl ih => simp [ih, add_div]
    rw [this]
    field_simp
    ring
  · intro m hm
    unfold calculate_model_metrics_mape at hm
    rw [if_neg (Nat.pos_iff_ne_zero.mp hpos)] at hm
    have hsum : 0 ≤ ((actual.zip predicted).map
        fun ap => |(ap.1 - ap.2) / (if ap.1 ≠ 0 then ap.1 else 1)|).sum := by
      apply List.sum_nonneg
      intro x hx
      obtain ⟨ap, _, rfl⟩ := List.mem_map.mp hx
      exact abs_nonneg _
    have : 0 ≤ (((actual.zip predicted).map
        fun ap => |(ap.1 - ap.2) / (if ap.1 ≠ 0 then ap.1 else 1)|).sum
          / (actual.zip predicted).length) * 100 := by
      apply mul_nonneg _ (by norm_num)
      exact div_nonneg hsum (by positivity)
    rw [Option.some_inj] at hm
    exact hm ▸ this

/-- Witness for C1 at the spec's own example: `actual = [10, 0, 20]`,
`predicted = [10, 5, 15]`; the zero-actual term contributes `500`, the
average is `(0 + 500 + 25) / 3 = 175`, finite and non-negative. -/
theorem C1_mape_zero_denominator_guard_witness :
    calculate_model_metrics_mape [10, 0, 20] [10, 5, 15] = some 175 ∧ (0 : ℚ) ≤ 175 :=
  ⟨by norm_num [calculate_model_metrics_mape, abs],
   (C1_mape_zero_denominator_guard [10, 0, 20] [10, 5, 15] (by norm_num) (by simp)
      (by norm_num)).2 175 (by norm_num [calculate_model_metrics_mape, abs])⟩

/-!
## Sales series builder (`ARIMAForecastingService.prepare_sales_data`)

Days are integers with day `0` a Monday.  Pandas facts mirrored here:

* `df['order__created_at'].dt.to_period('W')` buckets a timestamp into its
  Monday-to-Sunday week, and `.start_time` is that week's **Monday**, so the
  weekly `date` column holds Mondays (`d % 7 = 0`).
* `pd.date_range(start, end, freq='D')` is every day from `start` to `end`.
* `pd.date_range(start, end, freq='W')` is anchored `W-SUN`: it yields
  exactly the **Sundays** `s` with `start ≤ s ≤ end` (`s % 7 = 6`).
* `reindex(index, fill_value=0)` looks rows up by exact label equality and
  fills absent labels with `0`; looking up a label with no source rows gives
  the same `0` an empty group would, so the sum-lookup below is equivalent.

The `start_date`/`end_date` window restriction is applied by the ORM query
upstream; rows given to the builder are the rows inside the window. -/

inductive OrderStatus where
  | pending
  | confirmed
  | processing
  | shipped
  | delivered
  | cancelled
  deriving DecidableEq

/-- One order line joined with its order: creation day, quantity, status. -/
structure OrderItemRow where
  created_at : ℤ
  quantity : ℤ
  status : OrderStatus
  deriving DecidableEq

/-- The `order__status__in` filter set of `prepare_sales_data`. -/
def fulfilledStatuses : List OrderStatus :=
  [.confirmed, .processing, .shipped, .delivered]

/-- Rows surviving the ORM filter (fulfilled-or-in-flight orders). -/
def sourceRows (rows : List OrderItemRow) : List OrderItemRow :=
  rows.filter fun r => fulfilledStatuses.contains r.status

/-- Minimum of a nonempty collection, as `foldl min`. -/
def listMinFrom (x : ℤ) (xs : List ℤ) : ℤ := xs.foldl min x

/-- Maximum of a nonempty collection, as `foldl max`. -/
def listMaxFrom (x : ℤ) (xs : List ℤ) : ℤ := xs.foldl max x

/-- The Monday of the week containing day `d` (pandas `Period('W').start_time`). -/
def weekStart (d : ℤ) : ℤ := d - d % 7

/-- Sum of quantities of the rows whose key (creation day, or week start)
equals `d` — the grouped sum that `reindex` looks up, `0` when no row matches. -/
def sumQtyWith (key : OrderItemRow → ℤ) (rows : List OrderItemRow) (d : ℤ) : ℤ :=
  ((rows.filter fun r => key r == d).map (·.quantity)).sum

/-- The range `pd.date_range(lo, hi, freq='D')`: every day from `lo` to `hi`. -/
def dateRangeDaily (lo hi : ℤ) : List ℤ :=
  (List.range (hi - lo + 1).toNat).map fun i => lo + i

/-- The range `pd.date_range(lo, hi, freq='W')` (anchored `W-SUN`): the Sundays `s`
with `lo ≤ s ≤ hi`. -/
def dateRangeWeekly (lo hi : ℤ) : List ℤ :=
  let first := lo + (6 - lo % 7)
  if hi < first then []
  else (List.range ((hi - first).toNat / 7 + 1)).map fun i => first + 7 * (i : ℤ)

/-- Embedding of `prepare_sales_data(..., period_type='daily')`: group by creation day,
then reindex over the daily date range from the minimum to the maximum
observed day, filling missing days with `0`.  `none` models the
`ValueError("No sales data found ...")` raised when no row survives the
status filter. -/
def prepare_sales_data_daily (rows : List OrderItemRow) : Option (List (ℤ × ℤ)) :=
  match sourceRows rows with
  | [] => none
  | r :: rs =>
    let lo := listMinFrom r.created_at (rs.map (·.created_at))
    let hi := listMaxFrom r.created_at (rs.map (·.created_at))
    some ((dateRangeDaily lo hi).map fun d => (d, sumQtyWith (·.created_at) (r :: rs) d))

/-- Embedding of `prepare_sales_data(..., period_type='weekly')`: group by week, set the
`date` column to each week's **Monday** (`start_time`), then reindex over
`pd.date_range(min, max, freq='W')` — which yields **Sundays** — filling
missing labels with `0`. -/
def prepare_sales_data_weekly (rows : List OrderItemRow) : Option (List (ℤ × ℤ)) :=
  match sourceRows rows with
  | [] => none
  | r :: rs =>
    let lo := listMinFrom (weekStart r.created_at) (rs.map fun x => weekStart x.created_at)
    let hi := listMaxFrom (weekStart r.created_at) (rs.map fun x => weekStart x.created_at)
    some ((dateRangeWeekly lo hi).map
      fun d => (d, sumQtyWith (fun x => weekStart x.created_at) (r :: rs) d))

/-- The weekly series the specification describes (its claim-side
counterpart to `prepare_sales_data_weekly`): one observation for every week
between the minimum and maximum observed week inclusive, keyed by the week
start, with the summed quantity of the matching rows and `0` for weeks with
no matching rows. -/
def weekly_series_spec (rows : List OrderItemRow) : Option (List (ℤ × ℤ)) :=
  match sourceRows rows with
  | [] => none
  | r :: rs =>
    let lo := listMinFrom (weekStart r.created_at) (rs.map fun x => weekStart x.created_at)
    let hi := listMaxFrom (weekStart r.created_at) (rs.map fun x => weekStart x.created_at)
    some ((List.range ((hi - lo).toNat / 7 + 1)).map
      fun i => (lo + 7 * (i : ℤ),
        sumQtyWith (fun x => weekStart x.created_at) (r :: rs) (lo + 7 * (i : ℤ))))

/-- Two fulfilled order lines two weeks apart: 5 units on day 0 (a Monday)
and 7 units on day 14 (a Monday). -/
def c2Rows : List OrderItemRow :=
  [⟨0, 5, .confirmed⟩, ⟨14, 7, .delivered⟩]

/-- C2 (code bug, evaluated at the failing input): for the weekly
granularity the code reindexes Monday-keyed week sums by the Sundays that
`pd.date_range(freq='W')` generates, so for sales of 5 and 7 units in the
first and third of three weeks it returns only two observations, both with
quantity 0 — every quantity is lost and one period is missing — whereas the
claimed series has one observation per week with the summed quantities. -/
theorem C2_weekly_reindex_mismatch :
    prepare_sales_data_weekly c2Rows = some [(6, 0), (13, 0)] ∧
    weekly_series_spec c2Rows = some [(0, 5), (7, 0), (14, 7)] ∧
    prepare_sales_data_weekly c2Rows ≠ weekly_series_spec c2Rows := by
  refine ⟨by decide, by decide, by decide⟩

/-!
## Model selector (`ARIMAForecastingService.find_optimal_arima_params`)

The stepwise AIC search itself is `pmdarima.auto_arima`, an external
routine; it is a parameter `search` returning either a model order
(`model.order`) or an internal failure (`Except.error`, the Python
exception caught by the method's `except Exception` handler). -/

/-- Embedding of `find_optimal_arima_params`: run the stepwise search; on any internal
failure log and fall back to the fixed default order `(1, 1, 1)`. -/
def find_optimal_arima_params (search : List ℚ → Except Unit (ℕ × ℕ × ℕ))
    (data : List ℚ) : ℕ × ℕ × ℕ :=
  match search data with
  | .ok o => o
  | .error _ => (1, 1, 1)

/-- C9: order selection never propagates a failure: it is a total function
into concrete orders — whenever the stepwise search fails for any internal
reason it returns the fixed default `(1, 1, 1)`, and when the search
succeeds it returns the searched order. -/
theorem C9_order_selection_never_raises (search : List ℚ → Except Unit (ℕ × ℕ × ℕ))
    (data : List ℚ) :
    (∀ e, search data = .error e → find_optimal_arima_params search data = (1, 1, 1)) ∧
    (∀ o, search data = .ok o → find_optimal_arima_params search data = o) := by
  constructor
  · intro e he
    simp [find_optimal_arima_params, he]
  · intro o ho
    simp [find_optimal_arima_params, ho]

/-- Witness for C9: a search that always fails (e.g. by non-convergence)
still yields the default order `(1, 1, 1)` on a concrete series. -/
theorem C9_order_selection_never_raises_witness :
    find_optimal_arima_params (fun _ => .error ()) [3, 1, 4, 1, 5] = (1, 1, 1) :=
  (C9_order_selection_never_raises (fun _ => .error ()) [3, 1, 4, 1, 5]).1 () rfl

/-!
## Forecast engine entry (`ARIMAForecastingService.generate_forecast`)

Only the data-sufficiency gate is algorithmic code of the repository; the
ARIMA fit itself (statsmodels) is the external parameter `fitModel`.  The
gate runs before any model is fitted or any `DemandForecast` row created,
so an insufficient-data failure returns without persisting anything. -/

/-- The value `self.min_data_points` set in `ARIMAForecastingService.__init__`. -/
def min_data_points : ℕ := 30

/-- Errors out of `generate_forecast`:
`insufficientData` models the `ValueError("Insufficient data points. Need
at least {need}, got {got}")` raised by the gate (the spec's
`InsufficientDataError`, carrying both counts), `fitFailure` any error of
the downstream model fit. -/
inductive ForecastErr where
  | insufficientData (got required : ℕ)
  | fitFailure
  deriving DecidableEq

/-- Embedding of `generate_forecast`, given the prepared sales series: enforce the
minimum-observations precondition, then hand the series to the ARIMA fit;
`α` is the fitted forecast payload (the persisted `DemandForecast`). -/
def generate_forecast {α : Type} (fitModel : List (ℤ × ℤ) → Except Unit α)
    (sales_data : List (ℤ × ℤ)) : Except ForecastErr α :=
  if sales_data.length < min_data_points then
    .error (.insufficientData sales_data.length min_data_points)
  else
    match fitModel sales_data with
    | .ok r => .ok r
    | .error _ => .error .fitFailure

/-- C8: a series of fewer than 30 observations fails with the
insufficient-data error naming the actual count and the required count 30,
and no forecast value is produced (the result is an error, so nothing is
persisted); a series of at least 30 observations never fails with that
error. -/
theorem C8_min_data_points_gate {α : Type} (fitModel : List (ℤ × ℤ) → Except Unit α)
    (sales_data : List (ℤ × ℤ)) :
    (sales_data.length < 30 →
      generate_forecast fitModel sales_data =
        .error (.insufficientData sales_data.length 30)) ∧
    (30 ≤ sales_data.length →
      ∀ got required, generate_forecast fitModel sales_data ≠
        .error (.insufficientData got required)) := by
  constructor
  · intro hlt
    simp [generate_forecast, min_data_points, hlt]
  · intro hge got required
    have hnlt : ¬ sales_data.length < min_data_points := by
      simp [min_data_points]; omega
    simp only [generate_forecast, if_neg hnlt]
    cases fitModel sales_data <;> simp

/-- Witness for C8: a 2-observation series is rejected with counts
`(got = 2, required = 30)` even though the model fit would succeed, and a
30-observation series is not rejected by the gate. -/
theorem C8_min_data_points_gate_witness :
    generate_forecast (fun _ => Except.ok ()) [(0, 1), (1, 2)] =
      .error (.insufficientData 2 30) ∧
    generate_forecast (fun _ => Except.ok ())
      ((List.range 30).map fun i => ((i : ℤ), 1)) ≠
      .error (.insufficientData 30 30) :=
  ⟨(C8_min_data_points_gate (fun _ => Except.ok ()) [(0, 1), (1, 2)]).1 (by decide),
   (C8_min_data_points_gate (fun _ => Except.ok ())
      ((List.range 30).map fun i => ((i : ℤ), 1))).2 (by decide) 30 30⟩

/-!
## Inventory policy optimizer (`ARIMAForecastingService.optimize_inventory_levels`)

The method reads `forecast.forecasted_demand` and
`forecast.medicine.unit_price`; notably it never reads
`forecast.forecast_period`.  `scipy.stats.norm.ppf` and `np.sqrt` are the
external parameters `ppf` and `sqrtf` (returning `none` where the real
routines return a non-finite float: `ppf` outside `(0, 1)`, `sqrt` of a
negative).  Python's `int()` of a non-finite float raises
(`ValueError` for `nan`, `OverflowError` for `±inf`), modelled as the
single error `notFiniteToInt`. -/

/-- The forecast granularities accepted by the service
(`'daily' | 'weekly' | 'monthly'`). -/
inductive Granularity where
  | daily
  | weekly
  | monthly
  deriving DecidableEq

/-- The slice of a persisted `DemandForecast` (plus its medicine's
`unit_price`) that `optimize_inventory_levels` consumes. -/
structure DemandForecastRec where
  forecast_period : Granularity
  forecasted_demand : List ℚ
  unit_price : ℚ
  deriving DecidableEq

/-- The `InventoryOptimization` record created by the optimizer. -/
structure InventoryOptimizationRec where
  service_level : ℚ
  lead_time_days : ℚ
  holding_cost_percentage : ℚ
  optimal_reorder_point : ℤ
  optimal_order_quantity : ℤ
  optimal_maximum_stock : ℤ
  safety_stock : ℤ
  expected_holding_cost : ℚ
  expected_stockout_cost : ℚ
  total_expected_cost : ℚ
  deriving DecidableEq

/-- Failures of the optimizer.  `notFiniteToInt`: `int()` applied to a
non-finite float (Python `ValueError`/`OverflowError`); `zeroDivision`:
the `52 / len(forecasted_demand)` annualization with an empty forecast
(Python `ZeroDivisionError`).  `invalidParameter` renders the
specification's `InvalidParameterError`; it exists so that the claimed
behaviour is statable — no code path of the method constructs it. -/
inductive OptErr where
  | notFiniteToInt
  | zeroDivision
  | invalidParameter
  deriving DecidableEq

/-- Python `int(x)` on a float: truncation toward zero on finite values, an
exception on non-finite ones. -/
def pyIntOf : Option ℚ → Except OptErr ℤ
  | some q => .ok (pyInt q)
  | none => .error .notFiniteToInt

instance {ε α : Type} [DecidableEq ε] [DecidableEq α] : DecidableEq (Except ε α) :=
  fun a b =>
    match a, b with
    | .error e, .error f => decidable_of_iff (e = f) (by simp)
    | .ok x, .ok y => decidable_of_iff (x = y) (by simp)
    | .error _, .ok _ => .isFalse (by simp)
    | .ok _, .error _ => .isFalse (by simp)

/-- Embedding of `optimize_inventory_levels(forecast, service_level, lead_time_days,
holding_cost_percentage)`, line by line:

    avg_demand_lead_time = np.mean(fd) * (lead_time_days / 7)   # assuming weekly forecast
    demand_std           = np.std(fd)
    z_score              = stats.norm.ppf(service_level / 100)
    safety_stock         = z_score * demand_std * np.sqrt(lead_time_days / 7)
    reorder_point        = int(avg_demand_lead_time + safety_stock)
    annual_demand        = np.sum(fd) * (52 / len(fd))
    ordering_cost        = 50.0
    holding_cost_per_unit = unit_price * (holding_cost_percentage / 100)
    eoq                  = np.sqrt(2 * annual_demand * ordering_cost / holding_cost_per_unit)
    optimal_order_quantity = int(eoq)
    optimal_maximum_stock  = reorder_point + optimal_order_quantity
    expected_holding_cost  = (optimal_order_quantity / 2) * holding_cost_per_unit
    expected_stockout_cost = (1 - service_level / 100) * annual_demand * unit_price * 0.1

The factor is `lead_time_days / 7` for every granularity.  The second
`int(reorder_point)` in the `objects.create` call is the identity on an
`int` and is dropped. -/
def optimize_inventory_levels (ppf sqrtf : ℚ → Option ℚ) (forecast : DemandForecastRec)
    (service_level lead_time_days holding_cost_percentage : ℚ) :
    Except OptErr InventoryOptimizationRec :=
  let fd := forecast.forecasted_demand
  let avg_demand_lead_time := fMul (npMean fd) (some (lead_time_days / 7))
  let demand_std := fSqrt sqrtf (npVarianceP fd)
  let z_score := fPpf ppf (some (service_level / 100))
  let safety_stock := fMul (fMul z_score demand_std) (fSqrt sqrtf (some (lead_time_days / 7)))
  match pyIntOf (fAdd avg_demand_lead_time safety_stock) with
  | .error e => .error e
  | .ok reorder_point =>
    if fd.length = 0 then .error .zeroDivision
    else
      let annual_demand := fd.sum * ((52 : ℚ) / fd.length)
      let ordering_cost : ℚ := 50
      let holding_cost_per_unit := forecast.unit_price * (holding_cost_percentage / 100)
      let eoq := fSqrt sqrtf
        (fDiv (some (2 * annual_demand * ordering_cost)) (some holding_cost_per_unit))
      match pyIntOf eoq with
      | .error e => .error e
      | .ok optimal_order_quantity =>
        match pyIntOf safety_stock with
        | .error e => .error e
        | .ok safety_int =>
          let optimal_maximum_stock := reorder_point + optimal_order_quantity
          let expected_holding_cost := ((optimal_order_quantity : ℚ) / 2) * holding_cost_per_unit
          let expected_stockout_cost :=
            (1 - service_level / 100) * annual_demand * forecast.unit_price * (1 / 10)
          .ok ⟨service_level, lead_time_days, holding_cost_percentage,
               reorder_point, optimal_order_quantity, optimal_maximum_stock, safety_int,
               expected_holding_cost, expected_stockout_cost,
               expected_holding_cost + expected_stockout_cost⟩

/-- The period length in days the claim assigns to each granularity. -/
def periodLengthDays : Granularity → ℚ
  | .daily => 1
  | .weekly => 7
  | .monthly => 30

/-- The reorder point as the claim/specification words it (its claim-side
counterpart to the reorder point of `optimize_inventory_levels`):
`floor(mean(point_forecast) × lead/P + z × std × sqrt(lead/P))` with `P`
the period length of the forecast's granularity. -/
def spec_reorder_point (ppf sqrtf : ℚ → Option ℚ) (forecast : DemandForecastRec)
    (service_level lead_time_days : ℚ) : Option ℤ :=
  let P := periodLengthDays forecast.forecast_period
  let avg := fMul (npMean forecast.forecasted_demand) (some (lead_time_days / P))
  let sd := fSqrt sqrtf (npVarianceP forecast.forecasted_demand)
  let z := fPpf ppf (some (service_level / 100))
  let safety := fMul (fMul z sd) (fSqrt sqrtf (some (lead_time_days / P)))
  (fAdd avg safety).map fun q => ⌊q⌋

/-!
### Computable stand-ins for the external numerical routines

Counterexamples and witnesses need concrete `ppf`/`sqrt` functions.  The
theorems constrain the routines only through explicit hypotheses that
`scipy.stats.norm.ppf` and `np.sqrt` satisfy; the stand-ins below satisfy
the same hypotheses (and `ratSqrt` agrees with the true square root
exactly on rational squares, which is where the counterexamples evaluate
it). -/

/-- Exact rational square root where one exists (numerator and denominator
of the reduced fraction both perfect squares); elsewhere an arbitrary
finite placeholder (the argument itself). -/
def ratSqrt (q : ℚ) : ℚ :=
  if (Nat.sqrt q.num.toNat : ℤ) * (Nat.sqrt q.num.toNat) = q.num ∧
      Nat.sqrt q.den * Nat.sqrt q.den = q.den
  then (Nat.sqrt q.num.toNat : ℚ) / (Nat.sqrt q.den) else q

/-- Stand-in for `np.sqrt`: `nan` (`none`) on negative input, non-negative
and exact on rational squares. -/
def sqrtModel (q : ℚ) : Option ℚ :=
  if q < 0 then none else some (ratSqrt q)

/-- Stand-in for `scipy.stats.norm.ppf`: finite exactly on `(0, 1)`,
strictly increasing, zero at `1/2`, negative below `1/2` — the properties
of the standard normal quantile the theorems rely on. -/
def ppfModel (q : ℚ) : Option ℚ :=
  if 0 < q ∧ q < 1 then some (4 * q - 2) else none

theorem ppfModel_isSome_of_mem (q : ℚ) (h0 : 0 < q) (h1 : q < 1) : (ppfModel q).isSome := by
  simp [ppfModel, h0, h1]

theorem ppfModel_none_of_not_mem (q : ℚ) (h : q ≤ 0 ∨ 1 ≤ q) : ppfModel q = none := by
  unfold ppfModel
  rw [if_neg]
  rintro ⟨h0, h1⟩
  rcases h with h | h <;> linarith

theorem sqrtModel_isSome_of_nonneg (x : ℚ) (h : 0 ≤ x) : (sqrtModel x).isSome := by
  simp [sqrtModel, not_lt.mpr h]

theorem sqrtModel_nonneg (x s : ℚ) (h : sqrtModel x = some s) : 0 ≤ s := by
  unfold sqrtModel at h
  split at h
  · exact absurd h (by simp)
  · rw [Option.some_inj] at h
    subst h
    unfold ratSqrt
    split
    · positivity
    · linarith [not_lt.mp (by assumption : ¬ x < 0)]

/-- The function `pyIntOf` returns either the truncated integer or the conversion error. -/
theorem pyIntOf_cases (x : Option ℚ) :
    pyIntOf x = .error .notFiniteToInt ∨ ∃ q, x = some q ∧ pyIntOf x = .ok (pyInt q) := by
  cases x with
  | none => exact Or.inl rfl
  | some q => exact Or.inr ⟨q, rfl, rfl⟩

/-- The only error `pyIntOf` produces is the conversion error. -/
theorem pyIntOf_error_eq (x : Option ℚ) (e : OptErr) (h : pyIntOf x = .error e) :
    e = .notFiniteToInt := by
  cases x with
  | none => simpa [pyIntOf, eq_comm] using h
  | some q => simp [pyIntOf] at h

theorem npMean_of_ne_nil (xs : List ℚ) (h : xs ≠ []) :
    npMean xs = some (xs.sum / xs.length) := by
  rw [npMean, if_neg (fun hl => h (List.length_eq_zero.mp hl))]

theorem npVarianceP_of_ne_nil (xs : List ℚ) (h : xs ≠ []) :
    ∃ v, npVarianceP xs = some v ∧ 0 ≤ v := by
  rw [npVarianceP, npMean_of_ne_nil xs h, Option.some_bind]
  have hmap : xs.map (fun x => (x - xs.sum / xs.length) ^ 2) ≠ [] := by
    simpa using h
  rw [npMean_of_ne_nil _ hmap]
  refine ⟨_, rfl, div_nonneg (List.sum_nonneg ?_) (by positivity)⟩
  intro x hx
  obtain ⟨y, _, rfl⟩ := List.mem_map.mp hx
  positivity

/-- Characterization of `optimize_inventory_levels` once the front-end
external values are finite: the result is determined by the EOQ
square root, and every produced field is the corresponding formula with
the `lead_time_days / 7` factor. -/
theorem optimize_eq_of_front (ppf sqrtf : ℚ → Option ℚ) (fc : DemandForecastRec)
    (sl lead pct z sd w : ℚ)
    (hz : ppf (sl / 100) = some z)
    (hsd : fSqrt sqrtf (npVarianceP fc.forecasted_demand) = some sd)
    (hw : sqrtf (lead / 7) = some w)
    (hne : fc.forecasted_demand ≠ []) :
    optimize_inventory_levels ppf sqrtf fc sl lead pct =
      if fc.unit_price * (pct / 100) = 0 then .error .notFiniteToInt
      else
        match sqrtf (2 * (fc.forecasted_demand.sum * ((52 : ℚ) / fc.forecasted_demand.length)) * 50
            / (fc.unit_price * (pct / 100))) with
        | none => .error .notFiniteToInt
        | some e =>
          .ok ⟨sl, lead, pct,
            pyInt (fc.forecasted_demand.sum / fc.forecasted_demand.length * (lead / 7) + z * sd * w),
            pyInt e,
            pyInt (fc.forecasted_demand.sum / fc.forecasted_demand.length * (lead / 7) + z * sd * w)
              + pyInt e,
            pyInt (z * sd * w),
            (pyInt e : ℚ) / 2 * (fc.unit_price * (pct / 100)),
            (1 - sl / 100) * (fc.forecasted_demand.sum * ((52 : ℚ) / fc.forecasted_demand.length))
              * fc.unit_price * (1 / 10),
            (pyInt e : ℚ) / 2 * (fc.unit_price * (pct / 100)) +
              (1 - sl / 100) * (fc.forecasted_demand.sum * ((52 : ℚ) / fc.forecasted_demand.length))
                * fc.unit_price * (1 / 10)⟩ := by
  have hlen : fc.forecasted_demand.length ≠ 0 := fun hl => hne (List.length_eq_zero.mp hl)
  unfold optimize_inventory_levels
  simp only [npMean, if_neg hlen, fPpf_some, fSqrt_some, hz, hsd, hw, fMul_some_some,
    fAdd_some_some, pyIntOf]
  by_cases hb : fc.unit_price * (pct / 100) = 0
  · simp only [fDiv, if_pos hb, fSqrt_none, pyIntOf, if_pos hb, if_neg hlen]
  · simp only [fDiv, if_neg hb, fSqrt_some, if_neg hb, if_neg hlen]
    cases hsq : sqrtf (2 * (fc.forecasted_demand.sum * ((52 : ℚ) / fc.forecasted_demand.length))
        * 50 / (fc.unit_price * (pct / 100))) with
    | none => simp [pyIntOf]
    | some e => simp [pyIntOf]

/-- C3 counterexample: a daily-granularity forecast of constant demand 10
per day with `lead_time_days = 7`.  The claim's formula uses
`period_length_days = 1` for daily granularity, so its mean lead-time
demand is `10 × 7/1 = 70` and its reorder point is `70`; the code divides
by `7` regardless of granularity and returns reorder point `10`. -/
theorem C3_counterexample :
    (optimize_inventory_levels ppfModel sqrtModel ⟨.daily, [10, 10], 5⟩ 95 7 20).map
      (fun r => r.optimal_reorder_point) = .ok 10 ∧
    spec_reorder_point ppfModel sqrtModel ⟨.daily, [10, 10], 5⟩ 95 7 = some 70 ∧
    (10 : ℤ) ≠ 70 := by
  refine ⟨?_, ?_, by decide⟩
  · norm_num [optimize_inventory_levels, npMean, npVarianceP, fAdd, fMul, fDiv, fSqrt, fPpf,
      pyIntOf, pyInt, ppfModel, sqrtModel, ratSqrt, Int.toNat, Int.ceil_neg, Except.map]
  · norm_num [spec_reorder_point, periodLengthDays, npMean, npVarianceP, fAdd, fMul, fSqrt,
      fPpf, ppfModel, sqrtModel, ratSqrt, Int.toNat]

/-- C3 (amended): the optimizer converts lead time to forecast periods
with the fixed factor `lead_time_days / 7` — the weekly period length —
for **every** granularity (its result does not depend on
`forecast_period` at all): whenever it succeeds,
`reorder_point = trunc(mean(point_forecast) × lead/7 + z × std × sqrt(lead/7))`
(`trunc = floor` on non-negative values) and the stored
`safety_stock = trunc(z × std × sqrt(lead/7))`, with `z` the normal
quantile at `service_level/100` and `std` the population standard
deviation of the point forecast. -/
theorem C3_amended_lead_time_factor_always_weekly (ppf sqrtf : ℚ → Option ℚ)
    (g₁ g₂ : Granularity) (fd : List ℚ) (up sl lead pct z sd w : ℚ)
    (hz : ppf (sl / 100) = some z)
    (hsd : fSqrt sqrtf (npVarianceP fd) = some sd)
    (hw : sqrtf (lead / 7) = some w)
    (hne : fd ≠ []) :
    optimize_inventory_levels ppf sqrtf ⟨g₁, fd, up⟩ sl lead pct
      = optimize_inventory_levels ppf sqrtf ⟨g₂, fd, up⟩ sl lead pct ∧
    ∀ rec, optimize_inventory_levels ppf sqrtf ⟨g₁, fd, up⟩ sl lead pct = .ok rec →
      rec.optimal_reorder_point = pyInt (fd.sum / fd.length * (lead / 7) + z * sd * w) ∧
      rec.safety_stock = pyInt (z * sd * w) := by
  constructor
  · rfl
  · intro rec h
    rw [optimize_eq_of_front ppf sqrtf ⟨g₁, fd, up⟩ sl lead pct z sd w hz hsd hw hne] at h
    by_cases hb : (⟨g₁, fd, up⟩ : DemandForecastRec).unit_price * (pct / 100) = 0
    · rw [if_pos hb] at h
      exact absurd h (by simp)
    · rw [if_neg hb] at h
      cases hsq : sqrtf (2 * (fd.sum * ((52 : ℚ) / fd.length)) * 50 / (up * (pct / 100))) with
      | none =>
        rw [hsq] at h
        exact absurd h (by simp)
      | some e =>
        rw [hsq] at h
        rw [Except.ok.injEq] at h
        subst h
        exact ⟨rfl, rfl⟩

/-- Witness for the amended C3 at a concrete run: forecast `[0, 2]`
(mean 1, population std 1), unit price 10, `service_level = 95`,
`lead = 7`, `pct = 20`; the result is independent of the granularity
field, and the reorder point is `trunc(1 × 7/7 + z·1·1) = 2` with the
stored safety stock `trunc(z) = 1` (stand-in `z = 9/5`). -/
theorem C3_amended_lead_time_factor_always_weekly_witness :
    optimize_inventory_levels ppfModel sqrtModel ⟨.daily, [0, 2], 10⟩ 95 7 20
      = optimize_inventory_levels ppfModel sqrtModel ⟨.monthly, [0, 2], 10⟩ 95 7 20 ∧
    optimize_inventory_levels ppfModel sqrtModel ⟨.daily, [0, 2], 10⟩ 95 7 20
      = .ok ⟨95, 7, 20, 2, 2600, 2602, 1, 2600, 13 / 5, 13013 / 5⟩ ∧
    (2 : ℤ) = pyInt (([(0 : ℚ), 2].sum / ([(0 : ℚ), 2].length : ℚ)) * ((7 : ℚ) / 7)
      + (9 / 5) * 1 * 1) := by
  have hok : optimize_inventory_levels ppfModel sqrtModel ⟨.daily, [0, 2], 10⟩ 95 7 20
      = .ok ⟨95, 7, 20, 2, 2600, 2602, 1, 2600, 13 / 5, 13013 / 5⟩ := by
    norm_num [optimize_inventory_levels, npMean, npVarianceP, fAdd, fMul, fDiv, fSqrt, fPpf,
      pyIntOf, pyInt, ppfModel, sqrtModel, ratSqrt, Int.toNat, Int.ceil_neg]
  have h := C3_amended_lead_time_factor_always_weekly ppfModel sqrtModel .daily .monthly
    [0, 2] 10 95 7 20 (9 / 5) 1 1
    (by norm_num [ppfModel])
    (by norm_num [npVarianceP, npMean, fSqrt, sqrtModel, ratSqrt, Int.toNat])
    (by norm_num [sqrtModel, ratSqrt, Int.toNat])
    (by simp)
  refine ⟨h.1, hok, ?_⟩
  have h2 := (h.2 _ hok).1
  simpa using h2

/-- C4 counterexample: with a zero-demand forecast, a **negative** holding
cost percentage (`holding_cost_per_unit = 10 × (−20)/100 = −2 ≤ 0`) and
in-range service level, `optimize_inventory_levels` does not fail at all:
the EOQ radicand is `0/−2 = 0` (numpy: `sqrt(-0.0) = -0.0`) and a policy
record is produced — the claim requires a failure with
`InvalidParameterError` here.  Moreover an out-of-range
`service_level = 150` fails with the non-finite-to-int conversion error
(`ValueError` at `int(avg + safety)`), not `InvalidParameterError`. -/
theorem C4_counterexample :
    (10 : ℚ) * ((-20 : ℚ) / 100) ≤ 0 ∧
    optimize_inventory_levels ppfModel sqrtModel ⟨.weekly, [0, 0, 0, 0], 10⟩ 95 7 (-20)
      = .ok ⟨95, 7, -20, 0, 0, 0, 0, 0, 0, 0⟩ ∧
    optimize_inventory_levels ppfModel sqrtModel ⟨.weekly, [0, 2], 10⟩ 150 7 20
      = .error .notFiniteToInt ∧
    OptErr.notFiniteToInt ≠ OptErr.invalidParameter := by
  refine ⟨by norm_num, ?_, ?_, by decide⟩
  · norm_num [optimize_inventory_levels, npMean, npVarianceP, fAdd, fMul, fDiv, fSqrt, fPpf,
      pyIntOf, pyInt, ppfModel, sqrtModel, ratSqrt, Int.toNat, Int.ceil_neg]
  · norm_num [optimize_inventory_levels, npMean, npVarianceP, fAdd, fMul, fDiv, fSqrt, fPpf,
      pyIntOf, pyInt, ppfModel, sqrtModel, ratSqrt, Int.toNat, Int.ceil_neg]

/-- C4 (amended): `optimize_inventory_levels` performs no parameter
validation and can never fail with the specified `InvalidParameterError`:
(1) no error it returns is `invalidParameter`;
(2) an out-of-range service level (`≤ 0` or `≥ 100`) makes the normal
quantile non-finite and the computation fails with the unchecked
non-finite-to-int conversion error instead;
(3) for parameters with `0 < service_level < 100`,
`holding_cost_per_unit > 0` and `lead_time_days ≥ 0`, and a nonempty
non-negative forecast, the optimizer raises no error at all (given that
the external `ppf` is finite on `(0, 1)` and `sqrt` is finite on
non-negatives, as the scipy/numpy routines are). -/
theorem C4_amended_no_parameter_validation (ppf sqrtf : ℚ → Option ℚ)
    (fc : DemandForecastRec) (sl lead pct : ℚ) :
    (∀ e, optimize_inventory_levels ppf sqrtf fc sl lead pct = .error e →
      e ≠ .invalidParameter) ∧
    ((∀ q, q ≤ 0 ∨ 1 ≤ q → ppf q = none) → (sl ≤ 0 ∨ 100 ≤ sl) →
      optimize_inventory_levels ppf sqrtf fc sl lead pct = .error .notFiniteToInt) ∧
    ((∀ q, 0 < q → q < 1 → (ppf q).isSome) → (∀ x, 0 ≤ x → (sqrtf x).isSome) →
      0 < sl → sl < 100 → 0 < fc.unit_price * (pct / 100) → 0 ≤ lead →
      fc.forecasted_demand ≠ [] → (∀ x ∈ fc.forecasted_demand, 0 ≤ x) →
      (optimize_inventory_levels ppf sqrtf fc sl lead pct).isOk = true) := by
  refine ⟨?_, ?_, ?_⟩
  · intro e h
    simp only [optimize_inventory_levels] at h
    split at h
    · rename_i e1 heq
      cases h
      rw [pyIntOf_error_eq _ _ heq]
      decide
    · split at h
      · cases h
        decide
      · split at h
        · rename_i e1 heq
          cases h
          rw [pyIntOf_error_eq _ _ heq]
          decide
        · split at h
          · rename_i e1 heq
            cases h
            rw [pyIntOf_error_eq _ _ heq]
            decide
          · exact absurd h (by simp)
  · intro hppf hsl
    have hp : ppf (sl / 100) = none := by
      apply hppf
      rcases hsl with h | h
      · exact Or.inl (by linarith)
      · exact Or.inr (by linarith)
    simp only [optimize_inventory_levels, fPpf_some, hp, fMul_none_left, fAdd_none_right,
      pyIntOf]
  · intro hppf hsqrt h0 h1 hhold hlead hne hnn
    obtain ⟨z, hz⟩ := Option.isSome_iff_exists.mp (hppf (sl / 100) (by positivity) (by linarith))
    obtain ⟨v, hv, hv0⟩ := npVarianceP_of_ne_nil fc.forecasted_demand hne
    obtain ⟨sd, hsd⟩ := Option.isSome_iff_exists.mp (hsqrt v hv0)
    obtain ⟨w, hw⟩ := Option.isSome_iff_exists.mp (hsqrt (lead / 7) (by positivity))
    have hsd' : fSqrt sqrtf (npVarianceP fc.forecasted_demand) = some sd := by
      rw [hv, fSqrt_some, hsd]
    rw [optimize_eq_of_front ppf sqrtf fc sl lead pct z sd w hz hsd' hw hne,
      if_neg (ne_of_gt hhold)]
    have hrad : 0 ≤ 2 * (fc.forecasted_demand.sum * ((52 : ℚ) / fc.forecasted_demand.length))
        * 50 / (fc.unit_price * (pct / 100)) := by
      apply div_nonneg _ (le_of_lt hhold)
      have hsum : 0 ≤ fc.forecasted_demand.sum := List.sum_nonneg hnn
      positivity
    obtain ⟨e, he⟩ := Option.isSome_iff_exists.mp (hsqrt _ hrad)
    rw [he]
    rfl

/-- Witness for the amended C4: with the stand-in routines, in-range
parameters (`service_level = 95`, `lead = 7`, `pct = 20`, unit price 10,
forecast `[0, 2]`) produce a policy with no error, while the out-of-range
`service_level = 150` fails with the conversion error. -/
theorem C4_amended_no_parameter_validation_witness :
    (optimize_inventory_levels ppfModel sqrtModel ⟨.weekly, [0, 2], 10⟩ 95 7 20).isOk = true ∧
    optimize_inventory_levels ppfModel sqrtModel ⟨.weekly, [0, 2], 10⟩ 150 7 20
      = .error .notFiniteToInt :=
  ⟨(C4_amended_no_parameter_validation ppfModel sqrtModel ⟨.weekly, [0, 2], 10⟩ 95 7 20).2.2
      (fun q h0 h1 => ppfModel_isSome_of_mem q h0 h1)
      (fun x hx => sqrtModel_isSome_of_nonneg x hx)
      (by norm_num) (by norm_num) (by norm_num) (by norm_num) (by simp)
      (by intro x hx; fin_cases hx <;> norm_num),
   (C4_amended_no_parameter_validation ppfModel sqrtModel ⟨.weekly, [0, 2], 10⟩ 150 7 20).2.1
      (fun q hq => ppfModel_none_of_not_mem q hq) (Or.inr (by norm_num))⟩

/-- C5 counterexample: with forecast `[1, 1, 1, 1]` (annual demand 52),
unit price 1, the two holding-cost percentages `812500/169 < 13000000/2601`
give EOQ radicands `2704/25 = (52/5)²` and `2601/25 = (51/5)²` — genuine
rational squares, where the stand-in `sqrtModel` coincides with the true
square root — so the EOQs are `10.4` and `10.2` and **both** truncate to
`order_quantity = 10`: strictly increasing the percentage did not strictly
decrease the returned order quantity. -/
theorem C5_counterexample :
    (812500 / 169 : ℚ) < 13000000 / 2601 ∧
    sqrtModel (2704 / 25) = some (52 / 5) ∧ (52 / 5 : ℚ) * (52 / 5) = 2704 / 25 ∧
    sqrtModel (2601 / 25) = some (51 / 5) ∧ (51 / 5 : ℚ) * (51 / 5) = 2601 / 25 ∧
    (optimize_inventory_levels ppfModel sqrtModel ⟨.weekly, [1, 1, 1, 1], 1⟩ 95 7
      (812500 / 169)).map (fun r => r.optimal_order_quantity) = .ok 10 ∧
    (optimize_inventory_levels ppfModel sqrtModel ⟨.weekly, [1, 1, 1, 1], 1⟩ 95 7
      (13000000 / 2601)).map (fun r => r.optimal_order_quantity) = .ok 10 := by
  refine ⟨by norm_num, ?_, by norm_num, ?_, by norm_num, ?_, ?_⟩ <;>
    norm_num [optimize_inventory_levels, npMean, npVarianceP, fAdd, fMul, fDiv, fSqrt, fPpf,
      pyIntOf, pyInt, ppfModel, sqrtModel, ratSqrt, Int.toNat, Int.ceil_neg, Except.map]

/-- C5 (amended): for fixed demand and positive unit price, increasing
`holding_cost_pct` weakly decreases the returned `order_quantity`
(`int(eoq₂) ≤ int(eoq₁)`), and the real-valued EOQ before the `int()`
truncation strictly decreases whenever the forecasted demand is positive;
strictness of the truncated quantity can fail (see the counterexample,
where both truncate to 10). -/
theorem C5_amended_eoq_weakly_decreasing (ppf sqrtf : ℚ → Option ℚ) (g : Granularity)
    (fd : List ℚ) (up sl lead pct₁ pct₂ z sd w s₁ s₂ : ℚ)
    (hz : ppf (sl / 100) = some z)
    (hsd : fSqrt sqrtf (npVarianceP fd) = some sd)
    (hw : sqrtf (lead / 7) = some w)
    (hne : fd ≠ [])
    (hnn : ∀ x ∈ fd, 0 ≤ x)
    (hup : 0 < up)
    (hp1 : 0 < pct₁) (hp12 : pct₁ < pct₂)
    (hs₁ : sqrtf (2 * (fd.sum * ((52 : ℚ) / fd.length)) * 50 / (up * (pct₁ / 100))) = some s₁)
    (hsq₁ : s₁ * s₁ = 2 * (fd.sum * ((52 : ℚ) / fd.length)) * 50 / (up * (pct₁ / 100)))
    (hs₁n : 0 ≤ s₁)
    (hs₂ : sqrtf (2 * (fd.sum * ((52 : ℚ) / fd.length)) * 50 / (up * (pct₂ / 100))) = some s₂)
    (hsq₂ : s₂ * s₂ = 2 * (fd.sum * ((52 : ℚ) / fd.length)) * 50 / (up * (pct₂ / 100)))
    (hs₂n : 0 ≤ s₂) :
    (optimize_inventory_levels ppf sqrtf ⟨g, fd, up⟩ sl lead pct₁).map
      (fun r => r.optimal_order_quantity) = .ok (pyInt s₁) ∧
    (optimize_inventory_levels ppf sqrtf ⟨g, fd, up⟩ sl lead pct₂).map
      (fun r => r.optimal_order_quantity) = .ok (pyInt s₂) ∧
    pyInt s₂ ≤ pyInt s₁ ∧
    (0 < fd.sum → s₂ < s₁) := by
  have hlen : 0 < (fd.length : ℚ) := by
    have := List.length_pos.mpr hne
    exact_mod_cast this
  have hsum : 0 ≤ fd.sum := List.sum_nonneg hnn
  have hd₁ : 0 < up * (pct₁ / 100) := mul_pos hup (div_pos hp1 (by norm_num))
  have hd₂ : 0 < up * (pct₂ / 100) :=
    mul_pos hup (div_pos (lt_trans hp1 hp12) (by norm_num))
  have h52 : 0 ≤ (52 : ℚ) / fd.length := div_nonneg (by norm_num) (le_of_lt hlen)
  have hN : 0 ≤ 2 * (fd.sum * ((52 : ℚ) / fd.length)) * 50 :=
    mul_nonneg (mul_nonneg (by norm_num) (mul_nonneg hsum h52)) (by norm_num)
  refine ⟨?_, ?_, ?_, ?_⟩
  · rw [optimize_eq_of_front ppf sqrtf ⟨g, fd, up⟩ sl lead pct₁ z sd w hz hsd hw hne,
      if_neg (ne_of_gt hd₁)]
    rw [show (⟨g, fd, up⟩ : DemandForecastRec).forecasted_demand = fd from rfl] at *
    rw [hs₁]
    rfl
  · rw [optimize_eq_of_front ppf sqrtf ⟨g, fd, up⟩ sl lead pct₂ z sd w hz hsd hw hne,
      if_neg (ne_of_gt hd₂)]
    rw [show (⟨g, fd, up⟩ : DemandForecastRec).forecasted_demand = fd from rfl] at *
    rw [hs₂]
    rfl
  · apply pyInt_mono_of_nonneg _ _ hs₂n
    have hr : 2 * (fd.sum * ((52 : ℚ) / fd.length)) * 50 / (up * (pct₂ / 100))
        ≤ 2 * (fd.sum * ((52 : ℚ) / fd.length)) * 50 / (up * (pct₁ / 100)) := by
      rw [div_le_div_iff₀ hd₂ hd₁]
      apply mul_le_mul_of_nonneg_left _ hN
      have : pct₁ / 100 ≤ pct₂ / 100 := by linarith
      exact mul_le_mul_of_nonneg_left this (le_of_lt hup)
    nlinarith [hsq₁, hsq₂]
  · intro hpos
    have hN' : 0 < 2 * (fd.sum * ((52 : ℚ) / fd.length)) * 50 :=
      mul_pos (mul_pos (by norm_num) (mul_pos hpos (div_pos (by norm_num) hlen))) (by norm_num)
    have hr : 2 * (fd.sum * ((52 : ℚ) / fd.length)) * 50 / (up * (pct₂ / 100))
        < 2 * (fd.sum * ((52 : ℚ) / fd.length)) * 50 / (up * (pct₁ / 100)) := by
      rw [div_lt_div_iff₀ hd₂ hd₁]
      apply mul_lt_mul_of_pos_left _ hN'
      have : pct₁ / 100 < pct₂ / 100 := by linarith
      exact mul_lt_mul_of_pos_left this hup
    nlinarith [hsq₁, hsq₂]

/-- Witness for the amended C5 at the counterexample's inputs: the two
order quantities are `int(10.4)` and `int(10.2)`, weakly (not strictly)
ordered, and the unfloored EOQs strictly decrease since demand is
positive. -/
theorem C5_amended_eoq_weakly_decreasing_witness :
    (optimize_inventory_levels ppfModel sqrtModel ⟨.weekly, [1, 1, 1, 1], 1⟩ 95 7
      (812500 / 169)).map (fun r => r.optimal_order_quantity) = .ok (pyInt (52 / 5)) ∧
    (optimize_inventory_levels ppfModel sqrtModel ⟨.weekly, [1, 1, 1, 1], 1⟩ 95 7
      (13000000 / 2601)).map (fun r => r.optimal_order_quantity) = .ok (pyInt (51 / 5)) ∧
    pyInt (51 / 5 : ℚ) ≤ pyInt (52 / 5 : ℚ) ∧
    ((0 : ℚ) < [(1 : ℚ), 1, 1, 1].sum → (51 / 5 : ℚ) < 52 / 5) :=
  C5_amended_eoq_weakly_decreasing ppfModel sqrtModel .weekly [1, 1, 1, 1] 1 95 7
    (812500 / 169) (13000000 / 2601) (9 / 5) 0 1 (52 / 5) (51 / 5)
    (by norm_num [ppfModel])
    (by norm_num [npVarianceP, npMean, fSqrt, sqrtModel, ratSqrt, Int.toNat])
    (by norm_num [sqrtModel, ratSqrt, Int.toNat])
    (by simp)
    (by intro x hx; fin_cases hx <;> norm_num)
    (by norm_num) (by norm_num) (by norm_num)
    (by norm_num [sqrtModel, ratSqrt, Int.toNat]) (by norm_num) (by norm_num)
    (by norm_num [sqrtModel, ratSqrt, Int.toNat]) (by norm_num) (by norm_num)

/-- C6 counterexample: `service_level = 10` lies inside the accepted range
`(0, 100)` (with `lead = 7 > 0` and `holding_cost_per_unit = 13 > 0`), but
the normal quantile at `0.10` is negative (the stand-in gives `−8/5`; the
true `Φ⁻¹(0.1) ≈ −1.28` is likewise negative), so with forecast `[0, 2]`
(std 1) the stored `safety_stock = int(−8/5) = −1 < 0`, refuting the
claimed non-negativity. -/
theorem C6_counterexample :
    (0 : ℚ) < 10 ∧ (10 : ℚ) < 100 ∧ (0 : ℚ) < 7 ∧ (0 : ℚ) < 65 * ((20 : ℚ) / 100) ∧
    optimize_inventory_levels ppfModel sqrtModel ⟨.weekly, [0, 2], 65⟩ 10 7 20
      = .ok ⟨10, 7, 20, 0, 20, 20, -1, 130, 1521 / 5, 2171 / 5⟩ ∧
    ¬ (0 : ℤ) ≤ -1 := by
  refine ⟨by norm_num, by norm_num, by norm_num, by norm_num, ?_, by decide⟩
  norm_num [optimize_inventory_levels, npMean, npVarianceP, fAdd, fMul, fDiv, fSqrt, fPpf,
    pyIntOf, pyInt, ppfModel, sqrtModel, ratSqrt, Int.toNat, Int.ceil_neg]

/-- C6 (amended): the non-negativity invariant holds under the additional
assumptions the code actually needs: a non-negative normal quantile
(service level ≥ 50%), a non-negative lead time and non-negative forecast
values (and `sqrt` returning non-negative values, as `np.sqrt` does).
Then every produced policy has `safety_stock ≥ 0`, `reorder_point ≥ 0`,
`order_quantity ≥ 0`; the identity
`max_stock = reorder_point + order_quantity` holds for every produced
policy unconditionally.  For service levels below 50 the quantile is
negative and `safety_stock` can be negative (see the counterexample). -/
theorem C6_amended_nonnegativity_needs_nonneg_z (ppf sqrtf : ℚ → Option ℚ)
    (fc : DemandForecastRec) (sl lead pct z : ℚ)
    (hz : ppf (sl / 100) = some z) (hzn : 0 ≤ z)
    (hsqrt_nonneg : ∀ x s, sqrtf x = some s → 0 ≤ s)
    (hlead : 0 ≤ lead)
    (hne : fc.forecasted_demand ≠ [])
    (hnn : ∀ x ∈ fc.forecasted_demand, 0 ≤ x) :
    ∀ rec, optimize_inventory_levels ppf sqrtf fc sl lead pct = .ok rec →
      0 ≤ rec.safety_stock ∧ 0 ≤ rec.optimal_reorder_point ∧
      0 ≤ rec.optimal_order_quantity ∧
      rec.optimal_maximum_stock = rec.optimal_reorder_point + rec.optimal_order_quantity := by
  intro rec h
  obtain ⟨v, hv, hv0⟩ := npVarianceP_of_ne_nil fc.forecasted_demand hne
  cases hsd : sqrtf v with
  | none =>
    exfalso
    simp [optimize_inventory_levels, hv, fSqrt_some, hsd, fMul_none_left,
      fMul_none_right, fAdd_none_right, pyIntOf] at h
  | some sd =>
    cases hw : sqrtf (lead / 7) with
    | none =>
      exfalso
      simp [optimize_inventory_levels, hw, fSqrt_some, fMul_none_left,
        fMul_none_right, fAdd_none_right, pyIntOf] at h
    | some w =>
      have hsd' : fSqrt sqrtf (npVarianceP fc.forecasted_demand) = some sd := by
        rw [hv, fSqrt_some, hsd]
      rw [optimize_eq_of_front ppf sqrtf fc sl lead pct z sd w hz hsd' hw hne] at h
      by_cases hb : fc.unit_price * (pct / 100) = 0
      · rw [if_pos hb] at h
        exact absurd h (by simp)
      · rw [if_neg hb] at h
        cases hsq : sqrtf (2 * (fc.forecasted_demand.sum
            * ((52 : ℚ) / fc.forecasted_demand.length)) * 50
            / (fc.unit_price * (pct / 100))) with
        | none =>
          rw [hsq] at h
          exact absurd h (by simp)
        | some e =>
          rw [hsq, Except.ok.injEq] at h
          subst h
          have hsdn : 0 ≤ sd := hsqrt_nonneg v sd hsd
          have hwn : 0 ≤ w := hsqrt_nonneg (lead / 7) w hw
          have hen : 0 ≤ e := hsqrt_nonneg _ e hsq
          have hsafety : 0 ≤ z * sd * w := by positivity
          have hmean : 0 ≤ fc.forecasted_demand.sum / fc.forecasted_demand.length :=
            div_nonneg (List.sum_nonneg hnn) (by positivity)
          refine ⟨pyInt_nonneg _ hsafety, pyInt_nonneg _ ?_, pyInt_nonneg _ hen, rfl⟩
          have : 0 ≤ fc.forecasted_demand.sum / fc.forecasted_demand.length * (lead / 7) :=
            mul_nonneg hmean (by positivity)
          linarith

/-- Witness for the amended C6: `service_level = 95` (quantile `9/5 ≥ 0`),
forecast `[0, 2]`, unit price 65: the produced policy has
`safety_stock = 1 ≥ 0`, `reorder_point = 2 ≥ 0`, `order_quantity = 20 ≥ 0`
and `max_stock = 22 = 2 + 20`. -/
theorem C6_amended_nonnegativity_needs_nonneg_z_witness :
    0 ≤ (⟨95, 7, 20, 2, 20, 22, 1, 130, 169 / 10, 1469 / 10⟩
      : InventoryOptimizationRec).safety_stock ∧
    0 ≤ (⟨95, 7, 20, 2, 20, 22, 1, 130, 169 / 10, 1469 / 10⟩
      : InventoryOptimizationRec).optimal_reorder_point ∧
    0 ≤ (⟨95, 7, 20, 2, 20, 22, 1, 130, 169 / 10, 1469 / 10⟩
      : InventoryOptimizationRec).optimal_order_quantity ∧
    (⟨95, 7, 20, 2, 20, 22, 1, 130, 169 / 10, 1469 / 10⟩
      : InventoryOptimizationRec).optimal_maximum_stock
      = (⟨95, 7, 20, 2, 20, 22, 1, 130, 169 / 10, 1469 / 10⟩
        : InventoryOptimizationRec).optimal_reorder_point
        + (⟨95, 7, 20, 2, 20, 22, 1, 130, 169 / 10, 1469 / 10⟩
          : InventoryOptimizationRec).optimal_order_quantity :=
  C6_amended_nonnegativity_needs_nonneg_z ppfModel sqrtModel ⟨.weekly, [0, 2], 65⟩ 95 7 20
    (9 / 5)
    (by norm_num [ppfModel]) (by norm_num)
    (fun x s hs => sqrtModel_nonneg x s hs)
    (by norm_num) (by simp)
    (by intro x hx; fin_cases hx <;> norm_num)
    ⟨95, 7, 20, 2, 20, 22, 1, 130, 169 / 10, 1469 / 10⟩
    (by norm_num [optimize_inventory_levels, npMean, npVarianceP, fAdd, fMul, fDiv, fSqrt,
      fPpf, pyIntOf, pyInt, ppfModel, sqrtModel, ratSqrt, Int.toNat, Int.ceil_neg])

/-!
## Reorder alerts (`SupplyChainOptimizer.generate_reorder_alerts` and
`SupplyChainOptimizer._calculate_priority`)

The module imports only `Sum, Count, Q` from `django.db.models` and
binds no name `models`, yet `generate_reorder_alerts` evaluates
`models.F('reorder_point')` inside its candidate query, on every call,
before the per-product loop.  Python resolves the name when the
expression runs, so **every** invocation of the method raises
`NameError` at the query and nothing after it is reachable: not the
candidate filter, not the loop with its per-product `try/except`
handler, not the `return alerts`.  The method never returns an alert
list.  The embedding returns that failure unconditionally; the inputs
the dead code would have consumed (the candidate products and the
lookup of the latest active optimization) are kept as arguments so that
claims can be stated at concrete inputs.

`_calculate_priority` is a separate method of the class and is embedded
on its own: `stock_ratio = current_stock / optimal_reorder_point` with
no zero guard (`none` models the `ZeroDivisionError` raised when the
stored reorder point is 0), then the threshold ladder. -/

/-- Priorities of a reorder alert.  The code's `_calculate_priority`
produces only the first four; `critical` is named by the specification
(a product with zero current stock is always flagged critical) and
exists here so that claim is statable - no code path produces it. -/
inductive AlertPriority where
  | urgent
  | high
  | medium
  | low
  | critical
  deriving DecidableEq

/-- The fields of the `Medicine` row the alert generator reads. -/
structure MedicineRec where
  id : ℕ
  current_stock : ℤ
  reorder_point : ℤ
  is_active : Bool
  deriving DecidableEq

/-- The fields of the latest active `InventoryOptimization` the alert
generator reads. -/
structure OptimizationRec where
  optimal_reorder_point : ℤ
  optimal_order_quantity : ℤ
  deriving DecidableEq

/-- One alert dictionary of the (unreachable) loop of
`generate_reorder_alerts`. -/
structure ReorderAlert where
  medicine_id : ℕ
  current_stock : ℤ
  reorder_point : ℤ
  suggested_quantity : ℤ
  priority : AlertPriority
  deriving DecidableEq

/-- Embedding of `_calculate_priority`: `stock_ratio = current_stock /
optimal_reorder_point` (no zero guard - `none` is the
`ZeroDivisionError`), then the threshold ladder
`≤ 0.5 → urgent`, `≤ 0.75 → high`, `≤ 1.0 → medium`, else `low`. -/
def calculate_priority (m : MedicineRec) (o : OptimizationRec) : Option AlertPriority :=
  if o.optimal_reorder_point = 0 then none
  else
    some (if (m.current_stock : ℚ) / (o.optimal_reorder_point : ℚ) ≤ 1 / 2 then .urgent
      else if (m.current_stock : ℚ) / (o.optimal_reorder_point : ℚ) ≤ 3 / 4 then .high
      else if (m.current_stock : ℚ) / (o.optimal_reorder_point : ℚ) ≤ 1 then .medium
      else .low)

/-- The failure of `generate_reorder_alerts`: the Python `NameError`
raised by the unbound name `models` in the candidate query. -/
inductive AlertsErr where
  | nameError
  deriving DecidableEq

/-- Embedding of `generate_reorder_alerts`: the candidate query
evaluates the unbound-name reference `models.F('reorder_point')` first
on every call, so the method unconditionally raises `NameError` and
never builds or returns an alert; the filter and loop below the query
line are dead code. -/
def generate_reorder_alerts (_medicines : List MedicineRec)
    (_optFor : ℕ → Option OptimizationRec) : Except AlertsErr (List ReorderAlert) :=
  .error .nameError

/-- Two active low-stock candidate products: product 1 with stock 40 of
reorder point 50, product 2 with stock 0. -/
def c7Medicines : List MedicineRec :=
  [⟨1, 40, 50, true⟩, ⟨2, 0, 50, true⟩]

/-- Optimization lookup the claim's scenario supposes for both C7
candidates: stored reorder point 50, order quantity 100. -/
def c7OptFor : ℕ → Option OptimizationRec :=
  fun i => if i = 1 ∨ i = 2 then some ⟨50, 100⟩ else none

/-- C7 counterexample: at two concrete active low-stock candidates with
stored optimizations - the very products whose alerts the claim would
rank - `generate_reorder_alerts` does not return any `ReorderAlert`
sequence at all (let alone one ordered most urgent first): the unbound
name `models` in its candidate query raises `NameError` on entry, and in
particular the result is not the list the loop would have produced. -/
theorem C7_counterexample :
    generate_reorder_alerts c7Medicines c7OptFor = .error .nameError ∧
    (generate_reorder_alerts c7Medicines c7OptFor).toOption = none ∧
    generate_reorder_alerts c7Medicines c7OptFor ≠
      .ok [⟨1, 40, 50, 100, .medium⟩, ⟨2, 0, 50, 100, .urgent⟩] :=
  ⟨rfl, rfl, by decide⟩

/-- C7 (amended): `generate_reorder_alerts` never returns an alert
sequence - every invocation fails with the `NameError` of the unbound
name `models` in its candidate query, evaluated before any alert is
built - so no ordering of the output exists.  The priority helper
`_calculate_priority`, taken on its own, does follow the claimed
`stock_ratio` thresholds when the stored reorder point is non-zero
(`≤ 0.5 → urgent`, `≤ 0.75 → high`, `≤ 1.0 → medium`, `> 1.0 → low`);
a zero-stock product maps to `urgent`, the most urgent level the code
has, and no input maps to a separate `critical` level. -/
theorem C7_amended_alerts_never_returned (ms : List MedicineRec)
    (optFor : ℕ → Option OptimizationRec) (m : MedicineRec) (o : OptimizationRec) :
    generate_reorder_alerts ms optFor = .error .nameError ∧
    (o.optimal_reorder_point ≠ 0 →
      calculate_priority m o =
        some (if (m.current_stock : ℚ) / (o.optimal_reorder_point : ℚ) ≤ 1 / 2 then .urgent
          else if (m.current_stock : ℚ) / (o.optimal_reorder_point : ℚ) ≤ 3 / 4 then .high
          else if (m.current_stock : ℚ) / (o.optimal_reorder_point : ℚ) ≤ 1 then .medium
          else .low)) ∧
    (o.optimal_reorder_point ≠ 0 → m.current_stock = 0 →
      calculate_priority m o = some .urgent) ∧
    calculate_priority m o ≠ some .critical := by
  refine ⟨rfl, ?_, ?_, ?_⟩
  · intro hnz
    unfold calculate_priority
    rw [if_neg hnz]
  · intro hnz hz
    unfold calculate_priority
    rw [if_neg hnz, hz]
    norm_num
  · unfold calculate_priority
    split
    · simp
    · split_ifs <;> decide

/-- Witness for the amended C7: the concrete candidates yield the
`NameError`; on its own, the priority helper maps the zero-stock product
to `urgent` and never to `critical`. -/
theorem C7_amended_alerts_never_returned_witness :
    generate_reorder_alerts c7Medicines c7OptFor = .error .nameError ∧
    calculate_priority ⟨2, 0, 50, true⟩ ⟨50, 100⟩ = some .urgent ∧
    calculate_priority ⟨1, 40, 50, true⟩ ⟨50, 100⟩ ≠ some .critical :=
  ⟨(C7_amended_alerts_never_returned c7Medicines c7OptFor ⟨2, 0, 50, true⟩ ⟨50, 100⟩).1,
   (C7_amended_alerts_never_returned c7Medicines c7OptFor ⟨2, 0, 50, true⟩ ⟨50, 100⟩).2.2.1
     (by decide) rfl,
   (C7_amended_alerts_never_returned c7Medicines c7OptFor ⟨1, 40, 50, true⟩ ⟨50, 100⟩).2.2.2⟩

/-- Optimization lookup for the C10 scenario: product 1 has a healthy
optimization, product 2's latest active optimization stores
`optimal_reorder_point = 0`. -/
def c10OptFor : ℕ → Option OptimizationRec :=
  fun i => if i = 1 then some ⟨50, 100⟩ else if i = 2 then some ⟨0, 30⟩ else none

/-- C10 counterexample: the division-by-zero premise is real - product
2's optimization stores reorder point 0 and its priority computation is
the unguarded `ZeroDivisionError` (`none`) - but the claimed silent
omission from "the returned alert list" is impossible: at the concrete
candidate list the method raises `NameError` before its loop and returns
no list at all, with or without the product. -/
theorem C10_counterexample :
    calculate_priority ⟨2, 10, 50, true⟩ ⟨0, 30⟩ = none ∧
    generate_reorder_alerts [⟨1, 40, 50, true⟩, ⟨2, 10, 50, true⟩] c10OptFor
      = .error .nameError ∧
    (generate_reorder_alerts [⟨1, 40, 50, true⟩, ⟨2, 10, 50, true⟩] c10OptFor).toOption
      = none :=
  ⟨rfl, rfl, rfl⟩

/-- C10 (amended): `_calculate_priority` does divide by the stored
`optimal_reorder_point` with no zero guard, so a stored reorder point of
0 raises `ZeroDivisionError`; but the surrounding per-product `except`
handler of `generate_reorder_alerts` can never run - the method fails
with the `NameError` of the unbound name `models` in its candidate
query, before the loop, on every call - so it never returns an alert
list and the claimed silent per-product omission cannot occur. -/
theorem C10_amended_handler_unreachable (m : MedicineRec) (o : OptimizationRec)
    (ms : List MedicineRec) (optFor : ℕ → Option OptimizationRec)
    (hz : o.optimal_reorder_point = 0) :
    calculate_priority m o = none ∧
    generate_reorder_alerts ms optFor = .error .nameError := by
  constructor
  · unfold calculate_priority
    rw [if_pos hz]
  · rfl

/-- Witness for the amended C10 at a concrete zero-reorder-point
optimization and candidate list. -/
theorem C10_amended_handler_unreachable_witness :
    calculate_priority ⟨2, 10, 50, true⟩ ⟨0, 30⟩ = none ∧
    generate_reorder_alerts [⟨1, 40, 50, true⟩] c10OptFor = .error .nameError :=
  C10_amended_handler_unreachable ⟨2, 10, 50, true⟩ ⟨0, 30⟩ [⟨1, 40, 50, true⟩]
    c10OptFor rfl

end MedOrd
